import Mathlib

/-!
Verification of the `safety_limits_interface` soft joint limits header
(`soft_joint_limits_interface.h`).

The header implements three per-joint limit-enforcement laws (position-mode
soft limits, effort-mode soft limits, velocity-mode saturation) plus a
registry (`JointLimitsInterface`) that resolves joint names to handles.

Embedding choices:
- C++ `double` arithmetic is modelled by exact rational arithmetic (`ℚ`);
  all claims here are about the clamp/projection algebra, not about
  floating-point rounding.
- `throw SafetyLimitsInterfaceException(...)` in constructors and in
  `getHandle` is modelled by `Except SafetyError`, where `SafetyError`
  records the exception class (the C++ dynamic type a `catch` clause can
  discriminate) and the message string.  The repository declares a single
  exception class, `SafetyLimitsInterfaceException`; the generic
  `std::logic_error` thrown by the external `ResourceManager` is a second
  class.
- The hardware joint handle (`hardware_interface::JointHandle`) only feeds
  `getPosition() / getVelocity() / getCommand()` into the laws and receives
  one `setCommand`; each `enforceLimits` body is therefore embedded as a
  pure function from the read values (and the limit data) to the written
  command.
-/

namespace SafetyLimits

/-- Modelled from the spec: `safety_limits_interface/joint_limits.h` is not
under `src/`; the spec's LimitSpec lists exactly these fields — hard limit
values (`min_position`, `max_position`, `max_velocity`, `max_effort`, each
"only meaningful when corresponding presence flag is set") and the three
presence flags.  Field order: the three flags, then the four values. -/
structure JointLimits where
  has_position_limits : Bool
  has_velocity_limits : Bool
  has_effort_limits : Bool
  min_position : ℚ
  max_position : ℚ
  max_velocity : ℚ
  max_effort : ℚ
deriving DecidableEq, Repr

/-- Modelled from the spec: a default-constructed LimitSpec (what the C++
public no-argument handle constructors leave in the `limits_` member) has
no limit data resolved, so every presence flag is unset and the values are
zero-initialised. -/
def JointLimits.default : JointLimits :=
  ⟨false, false, false, 0, 0, 0, 0⟩

/-- Modelled from the spec: SoftLimitSpec from `joint_limits.h` (not under
`src/`): soft position band `min_position ≤ max_position` (normally), gain
`k_position` converting position overshoot into a velocity penalty, gain
`k_velocity` converting velocity overshoot into an effort penalty.
Field order: `min_position`, `max_position`, `k_position`, `k_velocity`. -/
structure SoftJointLimits where
  min_position : ℚ
  max_position : ℚ
  k_position : ℚ
  k_velocity : ℚ
deriving DecidableEq, Repr

/-- Modelled from the spec: a default-constructed SoftLimitSpec is
zero-initialised. -/
def SoftJointLimits.default : SoftJointLimits :=
  ⟨0, 0, 0, 0⟩

/-- `internal::saturate`: `std::min(std::max(val, min_val), max_val)`. -/
def saturate (val min_val max_val : ℚ) : ℚ :=
  min (max val min_val) max_val

/-- The velocity bounds `(soft_min_vel, soft_max_vel)` computed identically
at the start of `PositionJointSoftLimitsHandle::enforceLimits` and
`EffortJointSoftLimitsHandle::enforceLimits`: `±max_velocity` by default,
shrunk by the proportional soft-limit law when position limits are present. -/
def softVelocityBounds (limits : JointLimits) (soft : SoftJointLimits)
    (pos : ℚ) : ℚ × ℚ :=
  if limits.has_position_limits then
    (saturate (-soft.k_position * (pos - soft.min_position))
       (-limits.max_velocity) limits.max_velocity,
     saturate (-soft.k_position * (pos - soft.max_position))
       (-limits.max_velocity) limits.max_velocity)
  else
    (-limits.max_velocity, limits.max_velocity)

/-- The position bounds `(pos_low, pos_high)` of
`PositionJointSoftLimitsHandle::enforceLimits` after the projection
`pos + vel_bound * dt` and, when position limits are present, the extra
clamp of `pos_low` up to `min_position` and `pos_high` down to
`max_position` (lines 132-142 of the header). -/
def positionBounds (limits : JointLimits) (soft : SoftJointLimits)
    (pos dt : ℚ) : ℚ × ℚ :=
  let v := softVelocityBounds limits soft pos
  let pos_low := pos + v.1 * dt
  let pos_high := pos + v.2 * dt
  if limits.has_position_limits then
    (max pos_low limits.min_position, min pos_high limits.max_position)
  else
    (pos_low, pos_high)

/-- `PositionJointSoftLimitsHandle::enforceLimits`: the command written by
`setCommand`, as a function of the limit data, the position read from the
joint handle, the pending command read from it, and the control period. -/
def positionEnforceLimits (limits : JointLimits) (soft : SoftJointLimits)
    (pos cmd dt : ℚ) : ℚ :=
  let b := positionBounds limits soft pos dt
  saturate cmd b.1 b.2

/-- The effort bounds `(soft_min_eff, soft_max_eff)` of
`EffortJointSoftLimitsHandle::enforceLimits` (lines 209-216). -/
def effortBounds (limits : JointLimits) (soft : SoftJointLimits)
    (pos vel : ℚ) : ℚ × ℚ :=
  let v := softVelocityBounds limits soft pos
  (saturate (-soft.k_velocity * (vel - v.1)) (-limits.max_effort)
     limits.max_effort,
   saturate (-soft.k_velocity * (vel - v.2)) (-limits.max_effort)
     limits.max_effort)

/-- `EffortJointSoftLimitsHandle::enforceLimits`: the command written by
`setCommand`.  The C++ signature takes `const ros::Duration& /*period*/`
and never reads it; the embedding keeps the unused parameter. -/
def effortEnforceLimits (limits : JointLimits) (soft : SoftJointLimits)
    (pos vel cmd _period : ℚ) : ℚ :=
  let b := effortBounds limits soft pos vel
  saturate cmd b.1 b.2

/-- `VelocityJointSaturationHandle::enforceLimits`: the command written by
`setCommand`.  The period parameter is accepted and unused, as in C++. -/
def velocityEnforceLimits (limits : JointLimits) (cmd _period : ℚ) : ℚ :=
  saturate cmd (-limits.max_velocity) limits.max_velocity

/-- The C++ exception classes a `catch` clause can discriminate in this
code base: the repository's single domain exception class
`SafetyLimitsInterfaceException` (thrown by all three validating
constructors and rethrown by `JointLimitsInterface::getHandle`), and the
generic `std::logic_error` thrown by the external resource manager. -/
inductive ErrorClass where
  | safetyLimitsInterfaceException
  | stdLogicError
deriving DecidableEq, Repr

/-- A thrown exception: its dynamic class and its `what()` message. -/
structure SafetyError where
  cls : ErrorClass
  msg : String
deriving DecidableEq, Repr

/-- The constructor message for a missing velocity limits specification
(the C++ text wraps the joint name in single quote characters; the quote
characters are omitted here). -/
def noVelocityLimitsMsg (name : String) : String :=
  "Cannot enforce limits for joint " ++ name ++
    ". It has no velocity limits specification."

/-- The constructor message for a missing effort limits specification
(single quote characters around the name omitted, as above). -/
def noEffortLimitsMsg (name : String) : String :=
  "Cannot enforce limits for joint " ++ name ++
    ". It has no effort limits specification."

/-- A constructed position-mode handle: the joint name (from the bound
hardware joint handle) plus the limit data captured at construction. -/
structure PositionJointSoftLimitsHandle where
  name : String
  limits : JointLimits
  soft_limits : SoftJointLimits
deriving DecidableEq, Repr

/-- The validating `PositionJointSoftLimitsHandle(jh, limits, soft_limits)`
constructor: throws `SafetyLimitsInterfaceException` when
`has_velocity_limits` is unset, otherwise yields the handle. -/
def mkPositionJointSoftLimitsHandle (name : String) (limits : JointLimits)
    (soft_limits : SoftJointLimits) :
    Except SafetyError PositionJointSoftLimitsHandle :=
  if limits.has_velocity_limits = false then
    .error ⟨.safetyLimitsInterfaceException, noVelocityLimitsMsg name⟩
  else
    .ok ⟨name, limits, soft_limits⟩

/-- The public no-argument `PositionJointSoftLimitsHandle()` constructor:
no validation runs; the members are default-constructed. -/
def defaultPositionJointSoftLimitsHandle : PositionJointSoftLimitsHandle :=
  ⟨"", JointLimits.default, SoftJointLimits.default⟩

/-- A constructed effort-mode handle. -/
structure EffortJointSoftLimitsHandle where
  name : String
  limits : JointLimits
  soft_limits : SoftJointLimits
deriving DecidableEq, Repr

/-- The validating `EffortJointSoftLimitsHandle(jh, limits, soft_limits)`
constructor: checks `has_velocity_limits` first, then
`has_effort_limits`, throwing `SafetyLimitsInterfaceException` for the
first missing one. -/
def mkEffortJointSoftLimitsHandle (name : String) (limits : JointLimits)
    (soft_limits : SoftJointLimits) :
    Except SafetyError EffortJointSoftLimitsHandle :=
  if limits.has_velocity_limits = false then
    .error ⟨.safetyLimitsInterfaceException, noVelocityLimitsMsg name⟩
  else if limits.has_effort_limits = false then
    .error ⟨.safetyLimitsInterfaceException, noEffortLimitsMsg name⟩
  else
    .ok ⟨name, limits, soft_limits⟩

/-- The public no-argument `EffortJointSoftLimitsHandle()` constructor. -/
def defaultEffortJointSoftLimitsHandle : EffortJointSoftLimitsHandle :=
  ⟨"", JointLimits.default, SoftJointLimits.default⟩

/-- A constructed velocity-mode handle. -/
structure VelocityJointSaturationHandle where
  name : String
  limits : JointLimits
deriving DecidableEq, Repr

/-- The validating `VelocityJointSaturationHandle(jh, limits)` constructor:
throws `SafetyLimitsInterfaceException` when `has_velocity_limits` is
unset. -/
def mkVelocityJointSaturationHandle (name : String) (limits : JointLimits) :
    Except SafetyError VelocityJointSaturationHandle :=
  if limits.has_velocity_limits = false then
    .error ⟨.safetyLimitsInterfaceException, noVelocityLimitsMsg name⟩
  else
    .ok ⟨name, limits⟩

/-- The public no-argument `VelocityJointSaturationHandle()` constructor. -/
def defaultVelocityJointSaturationHandle : VelocityJointSaturationHandle :=
  ⟨"", JointLimits.default⟩

/-- Modelled from the spec: the external
`hardware_interface::ResourceManager::getHandle` (the hardware abstraction
layer is an excluded collaborator, not under `src/`) resolves a joint name
in the registry map and "fails ... when absent"; the failure is the
generic `std::logic_error` that the repository's `getHandle` catch clause
expects.  The registry map is embedded as an association list. -/
def resourceManagerGetHandle {H : Type} (resources : List (String × H))
    (name : String) : Except SafetyError H :=
  match resources.find? (fun p => p.1 == name) with
  | some p => .ok p.2
  | none => .error ⟨.stdLogicError,
      "Could not find resource " ++ name ++ " in the interface."⟩

/-- `JointLimitsInterface::getHandle`: delegates to the resource manager
and rethrows a caught `std::logic_error` as
`SafetyLimitsInterfaceException` with the same message ("Rethrow exception
with a meanungful type", lines 269-280); any other outcome propagates. -/
def getHandle {H : Type} (resources : List (String × H)) (name : String) :
    Except SafetyError H :=
  match resourceManagerGetHandle resources name with
  | .ok h => .ok h
  | .error e =>
    match e.cls with
    | .stdLogicError => .error ⟨.safetyLimitsInterfaceException, e.msg⟩
    | c => .error ⟨c, e.msg⟩

/-- The dynamic exception class of a failed computation, `none` on
success. -/
def errorClassOf {H : Type} : Except SafetyError H → Option ErrorClass
  | .error e => some e.cls
  | .ok _ => none

/-- The exception message of a failed computation, `none` on success. -/
def errorMsgOf {H : Type} : Except SafetyError H → Option String
  | .error e => some e.msg
  | .ok _ => none

/-- The position-mode law exactly as claim C1 words it: velocity bounds
`±max_velocity`, shrunk by the proportional law when position limits are
present, projected over the tick to `pos_low = pos + vMin * dt` and
`pos_high = pos + vMax * dt`, and the command clamped into
`[pos_low, pos_high]` — with no further clamp of the bounds to the hard
position band. -/
def positionEnforceClaimed (limits : JointLimits) (soft : SoftJointLimits)
    (pos cmd dt : ℚ) : ℚ :=
  let vMin :=
    if limits.has_position_limits then
      saturate (-soft.k_position * (pos - soft.min_position))
        (-limits.max_velocity) limits.max_velocity
    else -limits.max_velocity
  let vMax :=
    if limits.has_position_limits then
      saturate (-soft.k_position * (pos - soft.max_position))
        (-limits.max_velocity) limits.max_velocity
    else limits.max_velocity
  saturate cmd (pos + vMin * dt) (pos + vMax * dt)

/-- The saturated value never exceeds the upper argument. -/
theorem saturate_le_hi (c lo hi : ℚ) : saturate c lo hi ≤ hi :=
  min_le_right _ _

/-- When the bounds are ordered, the saturated value is at least the lower
argument. -/
theorem lo_le_saturate (c : ℚ) {lo hi : ℚ} (h : lo ≤ hi) :
    lo ≤ saturate c lo hi :=
  le_min (le_max_right c lo) h

/-- C1, corrected statement.  The position-mode handle computes the
velocity bounds by the proportional soft law when position limits are
present (`±max_velocity` otherwise), projects them over the tick to
position bounds, additionally clamps those bounds into the hard band
`[min_position, max_position]` when position limits are present, and
writes back the command clamped into the resulting interval.  Without
position limits the written command is exactly
`clamp(cmd, pos - max_velocity * dt, pos + max_velocity * dt)`. -/
theorem position_enforce_law (hp hv he : Bool) (minP maxP maxV maxE : ℚ)
    (soft : SoftJointLimits) (pos cmd dt : ℚ) :
    positionEnforceLimits ⟨false, hv, he, minP, maxP, maxV, maxE⟩ soft pos cmd dt
      = saturate cmd (pos + -maxV * dt) (pos + maxV * dt)
    ∧ positionEnforceLimits ⟨true, hp, he, minP, maxP, maxV, maxE⟩ soft pos cmd dt
      = saturate cmd
          (max (pos + saturate (-soft.k_position * (pos - soft.min_position))
                  (-maxV) maxV * dt) minP)
          (min (pos + saturate (-soft.k_position * (pos - soft.max_position))
                  (-maxV) maxV * dt) maxP) := by
  constructor <;> rfl

/-- C1, counterexample to the claim as stated.  With hard band `[-1, 1]`,
`max_velocity = 10`, soft band `[-1, 1]`, `k_position = 100`, current
position `0`, period `1` and pending command `-5`, the claimed law (no
hard clamp of the bounds) yields `-5`, strictly below the `-1` the code
writes back. -/
theorem position_claimed_law_mismatch :
    positionEnforceClaimed ⟨true, true, false, -1, 1, 10, 0⟩ ⟨-1, 1, 100, 0⟩
        0 (-5) 1 = -5
    ∧ positionEnforceLimits ⟨true, true, false, -1, 1, 10, 0⟩ ⟨-1, 1, 100, 0⟩
        0 (-5) 1 = -1
    ∧ positionEnforceClaimed ⟨true, true, false, -1, 1, 10, 0⟩ ⟨-1, 1, 100, 0⟩
        0 (-5) 1
      < positionEnforceLimits ⟨true, true, false, -1, 1, 10, 0⟩ ⟨-1, 1, 100, 0⟩
        0 (-5) 1 := by
  refine ⟨?_, ?_, ?_⟩ <;>
    norm_num [positionEnforceClaimed, positionEnforceLimits, positionBounds,
      softVelocityBounds, saturate, min_def, max_def]

/-- C2: the output of the position-mode law can leave the hard band
`[min_position, max_position]` even though `has_position_limits` is set.
With hard band `[-1, 1]`, `max_velocity = 10`, an ordered soft band
`[-5, -4]` lying entirely outside (below) the hard band, `k_position = 1`,
current position `-1` (inside the hard band), period `1` and pending
command `0`, the code writes back `-4`, strictly below the hard minimum
`-1`. -/
theorem position_hard_band_escape :
    positionEnforceLimits ⟨true, true, false, -1, 1, 10, 0⟩ ⟨-5, -4, 1, 0⟩
        (-1) 0 1 = -4
    ∧ positionEnforceLimits ⟨true, true, false, -1, 1, 10, 0⟩ ⟨-5, -4, 1, 0⟩
        (-1) 0 1
      < (⟨true, true, false, -1, 1, 10, 0⟩ : JointLimits).min_position := by
  refine ⟨?_, ?_⟩ <;>
    norm_num [positionEnforceLimits, positionBounds, softVelocityBounds,
      saturate, min_def, max_def]

/-- C3: the effort-mode handle computes velocity bounds exactly as in
position mode, derives effort bounds
`clamp(-k_velocity * (vel - vBound), -max_effort, max_effort)` from them,
and writes back exactly the command clamped into `[effMin, effMax]`. -/
theorem effort_enforce_law (hp hv he : Bool) (minP maxP maxV maxE : ℚ)
    (soft : SoftJointLimits) (pos vel cmd period : ℚ) :
    effortEnforceLimits ⟨hp, hv, he, minP, maxP, maxV, maxE⟩ soft pos vel cmd
        period
      = (let vMin :=
           if hp then
             saturate (-soft.k_position * (pos - soft.min_position)) (-maxV) maxV
           else -maxV
         let vMax :=
           if hp then
             saturate (-soft.k_position * (pos - soft.max_position)) (-maxV) maxV
           else maxV
         saturate cmd
           (saturate (-soft.k_velocity * (vel - vMin)) (-maxE) maxE)
           (saturate (-soft.k_velocity * (vel - vMax)) (-maxE) maxE)) := by
  cases hp <;> rfl

/-- C4: the velocity-mode handle writes back exactly
`clamp(cmd, -max_velocity, max_velocity)`, for every period and
independently of any position or effort data; in particular with
`max_velocity = 2` and command `-10` the output is `-2` for every period
and every setting of the remaining fields. -/
theorem velocity_enforce_law :
    (∀ (limits : JointLimits) (cmd p1 p2 : ℚ),
        velocityEnforceLimits limits cmd p1
          = min (max cmd (-limits.max_velocity)) limits.max_velocity
        ∧ velocityEnforceLimits limits cmd p1 = velocityEnforceLimits limits cmd p2)
    ∧ ∀ (hp hv he : Bool) (minP maxP maxE period : ℚ),
        velocityEnforceLimits ⟨hp, hv, he, minP, maxP, 2, maxE⟩ (-10) period
          = -2 := by
  refine ⟨fun limits cmd p1 p2 => ⟨rfl, rfl⟩, fun hp hv he minP maxP maxE p => ?_⟩
  show saturate (-10) (-(2 : ℚ)) 2 = -2
  norm_num [saturate, min_def, max_def]

/-- C5, counterexample to the claim as stated.  A velocity-mode handle is
constructible with a negative `max_velocity` (only the presence flag is
validated), and then the written command `-1` lies strictly below the
claimed lower bound `-max_velocity = 1`. -/
theorem velocity_bounds_containment_fails :
    velocityEnforceLimits ⟨false, true, false, 0, 0, -1, 0⟩ 0 1 = -1
    ∧ velocityEnforceLimits ⟨false, true, false, 0, 0, -1, 0⟩ 0 1
      < -(⟨false, true, false, 0, 0, -1, 0⟩ : JointLimits).max_velocity := by
  refine ⟨?_, ?_⟩ <;> norm_num [velocityEnforceLimits, saturate, min_def, max_def]

/-- C5, corrected statement.  In every mode the written command never
exceeds the upper bound computed for that tick, and it also lies at or
above the lower bound whenever that lower bound does not exceed the upper
bound (in velocity mode: whenever `-max_velocity ≤ max_velocity`). -/
theorem enforce_within_computed_bounds (limits : JointLimits)
    (soft : SoftJointLimits) (pos vel cmd dt period : ℚ) :
    (positionEnforceLimits limits soft pos cmd dt
        ≤ (positionBounds limits soft pos dt).2
      ∧ ((positionBounds limits soft pos dt).1
            ≤ (positionBounds limits soft pos dt).2 →
          (positionBounds limits soft pos dt).1
            ≤ positionEnforceLimits limits soft pos cmd dt))
    ∧ (effortEnforceLimits limits soft pos vel cmd period
        ≤ (effortBounds limits soft pos vel).2
      ∧ ((effortBounds limits soft pos vel).1
            ≤ (effortBounds limits soft pos vel).2 →
          (effortBounds limits soft pos vel).1
            ≤ effortEnforceLimits limits soft pos vel cmd period))
    ∧ (velocityEnforceLimits limits cmd period ≤ limits.max_velocity
      ∧ (-limits.max_velocity ≤ limits.max_velocity →
          -limits.max_velocity ≤ velocityEnforceLimits limits cmd period)) :=
  ⟨⟨saturate_le_hi _ _ _, fun h => lo_le_saturate cmd h⟩,
   ⟨saturate_le_hi _ _ _, fun h => lo_le_saturate cmd h⟩,
   ⟨saturate_le_hi _ _ _, fun h => lo_le_saturate cmd h⟩⟩

/-- C5, witness: a concrete ordered configuration where the lower-bound
halves of `enforce_within_computed_bounds` apply. -/
theorem enforce_within_computed_bounds_witness :
    (positionBounds ⟨false, true, false, 0, 0, 1, 1⟩ ⟨0, 0, 0, 0⟩ 0 1).1
      ≤ positionEnforceLimits ⟨false, true, false, 0, 0, 1, 1⟩ ⟨0, 0, 0, 0⟩ 0 5 1
    ∧ (effortBounds ⟨false, true, true, 0, 0, 1, 1⟩ ⟨0, 0, 0, 0⟩ 0 0).1
      ≤ effortEnforceLimits ⟨false, true, true, 0, 0, 1, 1⟩ ⟨0, 0, 0, 0⟩ 0 0 5 1
    ∧ -(⟨false, true, false, 0, 0, 1, 1⟩ : JointLimits).max_velocity
      ≤ velocityEnforceLimits ⟨false, true, false, 0, 0, 1, 1⟩ 5 1 :=
  ⟨(enforce_within_computed_bounds ⟨false, true, false, 0, 0, 1, 1⟩ ⟨0, 0, 0, 0⟩
        0 0 5 1 1).1.2
      (by norm_num [positionBounds, softVelocityBounds, saturate, min_def, max_def]),
   (enforce_within_computed_bounds ⟨false, true, true, 0, 0, 1, 1⟩ ⟨0, 0, 0, 0⟩
        0 0 5 1 1).2.1.2
      (by norm_num [effortBounds, softVelocityBounds, saturate, min_def, max_def]),
   (enforce_within_computed_bounds ⟨false, true, false, 0, 0, 1, 1⟩ ⟨0, 0, 0, 0⟩
        0 0 5 1 1).2.2.2 (by norm_num)⟩

/-- C6: every validating constructor throws
`SafetyLimitsInterfaceException` exactly on the missing limit categories —
the effort-mode constructor whenever `has_effort_limits` is unset, and all
three constructors whenever `has_velocity_limits` is unset, with a message
naming the joint; when the required flags are set the constructors return
the handle, after which enforcement is the total functions
`positionEnforceLimits` / `effortEnforceLimits` / `velocityEnforceLimits`,
which have no error outcome. -/
theorem constructor_validation (name : String) (limits : JointLimits)
    (soft : SoftJointLimits) :
    (limits.has_effort_limits = false →
      errorClassOf (mkEffortJointSoftLimitsHandle name limits soft)
        = some .safetyLimitsInterfaceException)
    ∧ (limits.has_velocity_limits = false →
      mkPositionJointSoftLimitsHandle name limits soft
          = .error ⟨.safetyLimitsInterfaceException, noVelocityLimitsMsg name⟩
        ∧ mkEffortJointSoftLimitsHandle name limits soft
          = .error ⟨.safetyLimitsInterfaceException, noVelocityLimitsMsg name⟩
        ∧ mkVelocityJointSaturationHandle name limits
          = .error ⟨.safetyLimitsInterfaceException, noVelocityLimitsMsg name⟩)
    ∧ (limits.has_velocity_limits = true →
      mkPositionJointSoftLimitsHandle name limits soft = .ok ⟨name, limits, soft⟩
        ∧ mkVelocityJointSaturationHandle name limits = .ok ⟨name, limits⟩
        ∧ (limits.has_effort_limits = true →
            mkEffortJointSoftLimitsHandle name limits soft
              = .ok ⟨name, limits, soft⟩)) := by
  obtain ⟨hp, hv, he, minP, maxP, maxV, maxE⟩ := limits
  refine ⟨?_, ?_, ?_⟩ <;> cases hv <;> cases he <;>
    simp [mkPositionJointSoftLimitsHandle, mkEffortJointSoftLimitsHandle,
      mkVelocityJointSaturationHandle, errorClassOf]

/-- C6, witness: concrete limit specifications exercising the
effort-missing branch, the velocity-missing branch, and a fully validated
construction. -/
theorem constructor_validation_witness :
    errorClassOf (mkEffortJointSoftLimitsHandle "joint_a"
        ⟨false, true, false, 0, 0, 1, 1⟩ ⟨0, 0, 0, 0⟩)
      = some .safetyLimitsInterfaceException
    ∧ mkPositionJointSoftLimitsHandle "joint_a"
        ⟨false, false, false, 0, 0, 0, 0⟩ ⟨0, 0, 0, 0⟩
      = .error ⟨.safetyLimitsInterfaceException, noVelocityLimitsMsg "joint_a"⟩
    ∧ mkEffortJointSoftLimitsHandle "joint_a"
        ⟨false, true, true, 0, 0, 1, 1⟩ ⟨0, 0, 0, 0⟩
      = .ok ⟨"joint_a", ⟨false, true, true, 0, 0, 1, 1⟩, ⟨0, 0, 0, 0⟩⟩ :=
  ⟨(constructor_validation "joint_a" ⟨false, true, false, 0, 0, 1, 1⟩
      ⟨0, 0, 0, 0⟩).1 rfl,
   ((constructor_validation "joint_a" ⟨false, false, false, 0, 0, 0, 0⟩
      ⟨0, 0, 0, 0⟩).2.1 rfl).1,
   ((constructor_validation "joint_a" ⟨false, true, true, 0, 0, 1, 1⟩
      ⟨0, 0, 0, 0⟩).2.2 rfl).2.2 rfl⟩

/-- C7, counterexample to the claim as stated.  The exception class thrown
by `getHandle` for an unregistered joint name is exactly the class thrown
by a failing handle construction — the repository's single
`SafetyLimitsInterfaceException` — so callers cannot distinguish a lookup
failure from a configuration failure by error kind. -/
theorem lookup_error_same_class_as_config_error :
    errorClassOf
        (getHandle ([] : List (String × PositionJointSoftLimitsHandle)) "joint_b")
      = errorClassOf (mkPositionJointSoftLimitsHandle "joint_b"
          ⟨false, false, false, 0, 0, 0, 0⟩ ⟨0, 0, 0, 0⟩)
    ∧ errorClassOf
        (getHandle ([] : List (String × PositionJointSoftLimitsHandle)) "joint_b")
      = some .safetyLimitsInterfaceException :=
  ⟨rfl, rfl⟩

/-- C7, corrected statement.  For every registry and every name absent
from it, `getHandle` fails with the domain-specific
`SafetyLimitsInterfaceException` class (the generic `std::logic_error`
from the resource manager is caught and rethrown), carrying the
resource-manager message. -/
theorem getHandle_domain_error {H : Type} (resources : List (String × H))
    (name : String)
    (habsent : resources.find? (fun p => p.1 == name) = none) :
    getHandle resources name
      = .error ⟨.safetyLimitsInterfaceException,
          "Could not find resource " ++ name ++ " in the interface."⟩ := by
  simp [getHandle, resourceManagerGetHandle, habsent]

/-- C7, witness: lookup of a name in an empty registry. -/
theorem getHandle_domain_error_witness :
    getHandle ([] : List (String × VelocityJointSaturationHandle)) "joint_c"
      = .error ⟨.safetyLimitsInterfaceException,
          "Could not find resource " ++ "joint_c" ++ " in the interface."⟩ :=
  getHandle_domain_error [] "joint_c" rfl

/-- C8: the effort-mode law writes the same command for any two period
values at a fixed joint state — it never reads the period — whereas the
position-mode law does depend on the period (at `max_velocity = 1`, no
position limits, position `0`, command `5`, the written command grows from
`1` to `2` as the period grows from `1` to `2`). -/
theorem effort_period_independent :
    (∀ (limits : JointLimits) (soft : SoftJointLimits) (pos vel cmd p1 p2 : ℚ),
        effortEnforceLimits limits soft pos vel cmd p1
          = effortEnforceLimits limits soft pos vel cmd p2)
    ∧ positionEnforceLimits ⟨false, true, false, 0, 0, 1, 0⟩ ⟨0, 0, 0, 0⟩ 0 5 1
      < positionEnforceLimits ⟨false, true, false, 0, 0, 1, 0⟩ ⟨0, 0, 0, 0⟩
          0 5 2 := by
  refine ⟨fun _ _ _ _ _ _ _ => rfl, ?_⟩
  norm_num [positionEnforceLimits, positionBounds, softVelocityBounds,
    saturate, min_def, max_def]

/-- C9, counterexample to the claim as stated.  With `max_velocity = 1`,
no position limits, command `5`, period `1` and current position `5`, the
code writes back `5` (the command is already inside the reachable band),
strictly below the claimed `p + 1 * dt = 6`. -/
theorem position_example_not_p_plus_dt :
    positionEnforceLimits ⟨false, true, false, 0, 0, 1, 0⟩ ⟨0, 0, 0, 0⟩ 5 5 1 = 5
    ∧ positionEnforceLimits ⟨false, true, false, 0, 0, 1, 0⟩ ⟨0, 0, 0, 0⟩ 5 5 1
      < 5 + 1 * 1 := by
  refine ⟨?_, ?_⟩ <;>
    norm_num [positionEnforceLimits, positionBounds, softVelocityBounds,
      saturate, min_def, max_def]

/-- C9, corrected statement.  With `max_velocity = 1` and no position
limits, command `5` produces exactly `clamp(5, p - dt, p + dt)`; this
equals `p + 1 * dt` for every position `p` with `p + dt ≤ 5` (the command
at or beyond the reachable band), not for every `p`. -/
theorem position_example_law (soft : SoftJointLimits) (hv he : Bool)
    (minP maxP maxE pos dt : ℚ) (hdt : 0 < dt) :
    positionEnforceLimits ⟨false, hv, he, minP, maxP, 1, maxE⟩ soft pos 5 dt
      = saturate 5 (pos + -1 * dt) (pos + 1 * dt)
    ∧ (pos + dt ≤ 5 →
        positionEnforceLimits ⟨false, hv, he, minP, maxP, 1, maxE⟩ soft pos 5 dt
          = pos + 1 * dt) := by
  constructor
  · rfl
  · intro hle
    show saturate 5 (pos + -1 * dt) (pos + 1 * dt) = pos + 1 * dt
    have h1 : pos + -1 * dt ≤ 5 := by linarith
    have h2 : pos + 1 * dt ≤ 5 := by linarith
    unfold saturate
    rw [max_eq_left h1, min_eq_right h2]

/-- C9, witness: position `0`, period `1`. -/
theorem position_example_law_witness :
    positionEnforceLimits ⟨false, true, false, 0, 0, 1, 0⟩ ⟨0, 0, 0, 0⟩ 0 5 1
      = 0 + 1 * 1 :=
  (position_example_law ⟨0, 0, 0, 0⟩ true false 0 0 0 0 1 (by norm_num)).2
    (by norm_num)

/-- C10, counterexample to the claim as stated.  The public no-argument
`PositionJointSoftLimitsHandle()` constructor yields a handle whose
`has_velocity_limits` flag is unset — no `SafetyLimitsInterfaceException`
was thrown — and the enforcement law (which reads `max_velocity`) still
runs on it, writing `0`. -/
theorem default_ctor_bypasses_validation :
    defaultPositionJointSoftLimitsHandle.limits.has_velocity_limits = false
    ∧ positionEnforceLimits defaultPositionJointSoftLimitsHandle.limits
        defaultPositionJointSoftLimitsHandle.soft_limits 0 0 1 = 0 := by
  refine ⟨rfl, ?_⟩
  norm_num [defaultPositionJointSoftLimitsHandle, JointLimits.default,
    SoftJointLimits.default, positionEnforceLimits, positionBounds,
    softVelocityBounds, saturate, min_def, max_def]

/-- C10, corrected statement.  Every handle obtained through a validating
constructor has `has_velocity_limits` set, and an effort-mode handle
additionally has `has_effort_limits` set; only the no-argument default
constructors bypass this gate. -/
theorem validated_handles_flags_true (name : String) (limits : JointLimits)
    (soft : SoftJointLimits) :
    (∀ h, mkPositionJointSoftLimitsHandle name limits soft = .ok h →
        h.limits.has_velocity_limits = true)
    ∧ (∀ h, mkEffortJointSoftLimitsHandle name limits soft = .ok h →
        h.limits.has_velocity_limits = true ∧ h.limits.has_effort_limits = true)
    ∧ (∀ h, mkVelocityJointSaturationHandle name limits = .ok h →
        h.limits.has_velocity_limits = true) := by
  obtain ⟨hp, hv, he, minP, maxP, maxV, maxE⟩ := limits
  refine ⟨?_, ?_, ?_⟩ <;> intro h hok <;> cases hv <;> cases he <;>
    simp_all [mkPositionJointSoftLimitsHandle, mkEffortJointSoftLimitsHandle,
      mkVelocityJointSaturationHandle] <;>
    (subst hok; simp)

/-- C10, witness: a validated effort-mode construction whose handle
carries both flags. -/
theorem validated_handles_flags_true_witness :
    (⟨"joint_d", ⟨false, true, true, 0, 0, 1, 1⟩, ⟨0, 0, 0, 0⟩⟩ :
        EffortJointSoftLimitsHandle).limits.has_velocity_limits = true
    ∧ (⟨"joint_d", ⟨false, true, true, 0, 0, 1, 1⟩, ⟨0, 0, 0, 0⟩⟩ :
        EffortJointSoftLimitsHandle).limits.has_effort_limits = true :=
  (validated_handles_flags_true "joint_d" ⟨false, true, true, 0, 0, 1, 1⟩
      ⟨0, 0, 0, 0⟩).2.1
    ⟨"joint_d", ⟨false, true, true, 0, 0, 1, 1⟩, ⟨0, 0, 0, 0⟩⟩ rfl

end SafetyLimits
